import Mathlib

/-!
Verification of the project/session state manager and backend-dispatch layer
of the Obsidian AI assistant.

The Python sources are shallowly embedded:

* `ConversationProject` and `ProjectManager` (src/project_manager.py) become
  Lean structures; the Python `dict` is modelled as an insertion-ordered
  association list with unique keys (exactly the observable behaviour of a
  Python 3.7+ dict), and `del d[k]` becomes `List.eraseP` on the single
  binding with key `k`.
* The two provider adapters (src/app.py) become pure functions that either
  fail before any network I/O (`AdapterAction.fail`) or produce the exact
  request that would be sent (`AdapterAction.request`).  Reads of
  `st.session_state` / `st.secrets` / the knowledge module become explicit
  parameters, and the single network round trip is modelled by handing the
  outcome of that call to an explicit response handler.
-/

/-- A chat message, as the dictionaries `{"role": ..., "content": ...}`
built by `ConversationProject.add_message` in src/project_manager.py. -/
structure Message where
  role : String
  content : String
  deriving DecidableEq, Repr

/-- One conversation project (src/project_manager.py, class
`ConversationProject`). -/
structure ConversationProject where
  name : String
  messages : List Message
  created_date : String
  deep_research_mode : Bool
  message_count : Nat
  deriving DecidableEq, Repr

/-- The constructor `ConversationProject.__init__`.  The Python code stamps
`created_date` from the wall clock (`datetime.now()`); the clock is an
external effect no claim observes, so it is modelled as the fixed value
`""`. -/
def ConversationProject.init (project_name : String) : ConversationProject :=
  { name := project_name
    messages := []
    created_date := ""
    deep_research_mode := false
    message_count := 0 }

/-- `ConversationProject.add_message`: append `{role, content}` and bump the
counter. -/
def ConversationProject.add_message (p : ConversationProject)
    (role content : String) : ConversationProject :=
  { p with
    messages := p.messages ++ [{ role := role, content := content }]
    message_count := p.message_count + 1 }

/-- `ConversationProject.get_messages`: the source returns
`copy.deepcopy(self.messages)`; under value semantics the deep copy is the
value itself. -/
def ConversationProject.get_messages (p : ConversationProject) : List Message :=
  p.messages

/-- `ConversationProject.clear_messages`: reset the list and the counter. -/
def ConversationProject.clear_messages (p : ConversationProject) :
    ConversationProject :=
  { p with messages := [], message_count := 0 }

/-- `ConversationProject.get_last_message`: `messages[-1]` when the list is
non-empty, `None` otherwise. -/
def ConversationProject.get_last_message (p : ConversationProject) :
    Option Message :=
  if p.messages.length > 0 then p.messages.getLast? else none

/-- `ConversationProject.toggle_research_mode`: flip the flag. -/
def ConversationProject.toggle_research_mode (p : ConversationProject) :
    ConversationProject :=
  { p with deep_research_mode := !p.deep_research_mode }

/-- An operation on a single transcript, for stating invariants over
arbitrary call sequences. -/
inductive TranscriptOp where
  | add (role content : String)
  | clear
  deriving DecidableEq, Repr

/-- Apply one transcript operation. -/
def ConversationProject.applyT (p : ConversationProject) :
    TranscriptOp → ConversationProject
  | .add role content => p.add_message role content
  | .clear => p.clear_messages

/-- `message_count == len(messages)` (the maintained invariant of
`ConversationProject`). -/
def countInvariant (p : ConversationProject) : Prop :=
  p.message_count = p.messages.length

theorem countInvariant_applyT (p : ConversationProject) (op : TranscriptOp)
    (h : countInvariant p) : countInvariant (p.applyT op) := by
  cases op with
  | add role content =>
      simp [countInvariant, ConversationProject.applyT,
        ConversationProject.add_message] at h ⊢
      omega
  | clear =>
      simp [countInvariant, ConversationProject.applyT,
        ConversationProject.clear_messages]

theorem countInvariant_foldl (ops : List TranscriptOp) :
    ∀ p : ConversationProject, countInvariant p →
      countInvariant (ops.foldl ConversationProject.applyT p) := by
  induction ops with
  | nil => intro p h; simpa using h
  | cons op rest ih =>
      intro p h
      simpa using ih (p.applyT op) (countInvariant_applyT p op h)

/-- Claim C8: for every freshly constructed `ConversationProject` and every
sequence of `add_message` / `clear_messages` operations, the invariant
`message_count == len(messages)` holds after each operation (i.e. after
every prefix of the sequence). -/
theorem message_count_matches_length (name : String)
    (ops : List TranscriptOp) (k : Nat) :
    ((ops.take k).foldl ConversationProject.applyT
        (ConversationProject.init name)).message_count
      = ((ops.take k).foldl ConversationProject.applyT
        (ConversationProject.init name)).messages.length := by
  have h := countInvariant_foldl (ops.take k) (ConversationProject.init name)
    (by simp [countInvariant, ConversationProject.init])
  simpa [countInvariant] using h

/-- Claim C9: `get_last_message` is total and never an error: it returns the
final element of `messages` when the list is non-empty (expressed via
`List.getLast?`) and the explicit absent signal `none` when it is empty;
immediately after `clear_messages` it returns `none` and `message_count`
is `0`. -/
theorem get_last_message_total (p : ConversationProject) :
    p.get_last_message = p.messages.getLast? ∧
    p.clear_messages.get_last_message = none ∧
    p.clear_messages.message_count = 0 := by
  refine ⟨?_, ?_, ?_⟩
  · cases h : p.messages with
    | nil => simp [ConversationProject.get_last_message, h]
    | cons a as => simp [ConversationProject.get_last_message, h]
  · simp [ConversationProject.get_last_message,
      ConversationProject.clear_messages]
  · simp [ConversationProject.clear_messages]

/-- The project registry (src/project_manager.py, class `ProjectManager`).
`projects` models the Python dict `self.projects`: an insertion-ordered
association list whose keys are unique in every reachable state. -/
structure ProjectManager where
  projects : List (String × ConversationProject)
  current_project_name : Option String
  deriving DecidableEq, Repr

/-- The constructor `ProjectManager.__init__`: empty dict, no selection. -/
def ProjectManager.init : ProjectManager :=
  { projects := [], current_project_name := none }

/-- `list(self.projects.keys())` (`ProjectManager.get_all_project_names`). -/
def ProjectManager.get_all_project_names (m : ProjectManager) : List String :=
  m.projects.map Prod.fst

/-- `ProjectManager.project_exists`: `project_name in self.projects`. -/
def ProjectManager.project_exists (m : ProjectManager)
    (project_name : String) : Prop :=
  project_name ∈ m.projects.map Prod.fst

instance (m : ProjectManager) (project_name : String) :
    Decidable (m.project_exists project_name) := by
  unfold ProjectManager.project_exists; infer_instance

/-- `ProjectManager.get_project_count`: `len(self.projects)`. -/
def ProjectManager.get_project_count (m : ProjectManager) : Nat :=
  m.projects.length

/-- `ProjectManager.create_project`: refuse duplicates, append the new
entry, and make it current when nothing was selected yet. -/
def ProjectManager.create_project (m : ProjectManager)
    (project_name : String) : Bool × ProjectManager :=
  if project_name ∈ m.projects.map Prod.fst then
    (false, m)
  else
    let new_project := ConversationProject.init project_name
    let projects := m.projects ++ [(project_name, new_project)]
    let current_project_name :=
      match m.current_project_name with
      | none => some project_name
      | some c => some c
    (true, { projects := projects, current_project_name := current_project_name })

/-- `ProjectManager.delete_project`: refuse absent names, drop the binding
(`del self.projects[project_name]` removes the single entry with that key),
and when the deleted project was current, select the first remaining key
(`remaining_projects[0]`) or `None`. -/
def ProjectManager.delete_project (m : ProjectManager)
    (project_name : String) : Bool × ProjectManager :=
  if project_name ∈ m.projects.map Prod.fst then
    let projects := m.projects.eraseP (fun entry => entry.1 == project_name)
    let current_project_name :=
      if m.current_project_name = some project_name then
        (projects.map Prod.fst).head?
      else
        m.current_project_name
    (true, { projects := projects, current_project_name := current_project_name })
  else
    (false, m)

/-- `ProjectManager.switch_to_project`: refuse absent names, otherwise set
the selector. -/
def ProjectManager.switch_to_project (m : ProjectManager)
    (project_name : String) : Bool × ProjectManager :=
  if project_name ∈ m.projects.map Prod.fst then
    (true, { m with current_project_name := some project_name })
  else
    (false, m)

/-- `ProjectManager.get_current_project`: the selected transcript, with the
defensive existence check of the source. -/
def ProjectManager.get_current_project (m : ProjectManager) :
    Option ConversationProject :=
  match m.current_project_name with
  | none => none
  | some name =>
      match m.projects.find? (fun entry => entry.1 == name) with
      | none => none
      | some entry => some entry.2

/-- A store operation, for stating invariants over arbitrary call
sequences. -/
inductive StoreOp where
  | create (project_name : String)
  | delete (project_name : String)
  | switchTo (project_name : String)
  deriving DecidableEq, Repr

/-- Apply one store operation (the returned success flag is not part of the
state). -/
def ProjectManager.apply (m : ProjectManager) : StoreOp → ProjectManager
  | .create n => (m.create_project n).2
  | .delete n => (m.delete_project n).2
  | .switchTo n => (m.switch_to_project n).2

/-- Run a sequence of store operations from a fresh manager. -/
def ProjectManager.run (ops : List StoreOp) : ProjectManager :=
  ops.foldl ProjectManager.apply ProjectManager.init

/-- The active-selector invariant: `current_project_name` is `None` only
when the dict is empty, and otherwise is a key present in the dict. -/
def activeInvariant (m : ProjectManager) : Prop :=
  match m.current_project_name with
  | none => m.projects = []
  | some n => n ∈ m.projects.map Prod.fst

theorem mem_map_fst_eraseP {l : List (String × ConversationProject)}
    {a name : String} (ha : a ∈ l.map Prod.fst) (hne : a ≠ name) :
    a ∈ (l.eraseP (fun entry => entry.1 == name)).map Prod.fst := by
  induction l with
  | nil => simp at ha
  | cons e es ih =>
      rw [List.map_cons] at ha
      rcases List.mem_cons.mp ha with h1 | h2
      · have hk : (e.1 == name) = false := by
          rw [← h1]; exact beq_eq_false_iff_ne.mpr hne
        rw [List.eraseP_cons, hk, cond_false, List.map_cons]
        exact List.mem_cons.mpr (Or.inl h1)
      · cases hbe : (e.1 == name) with
        | true =>
            rw [List.eraseP_cons, hbe, cond_true]
            exact h2
        | false =>
            rw [List.eraseP_cons, hbe, cond_false, List.map_cons]
            exact List.mem_cons.mpr (Or.inr (ih h2))

theorem activeInvariant_apply (m : ProjectManager) (op : StoreOp)
    (h : activeInvariant m) : activeInvariant (m.apply op) := by
  cases op with
  | create n =>
      by_cases hmem : n ∈ m.projects.map Prod.fst
      · simpa [ProjectManager.apply, ProjectManager.create_project, hmem] using h
      · cases hcur : m.current_project_name with
        | none =>
            simp [ProjectManager.apply, ProjectManager.create_project, hmem,
              hcur, activeInvariant]
        | some c =>
            have hc : c ∈ m.projects.map Prod.fst := by
              simpa [activeInvariant, hcur] using h
            simp only [ProjectManager.apply, ProjectManager.create_project,
              if_neg hmem, hcur, activeInvariant]
            simp [hc]
  | delete n =>
      by_cases hmem : n ∈ m.projects.map Prod.fst
      · by_cases hcn : m.current_project_name = some n
        · have happ : m.apply (.delete n) =
              { projects := m.projects.eraseP (fun entry => entry.1 == n)
                current_project_name :=
                  ((m.projects.eraseP
                    (fun entry => entry.1 == n)).map Prod.fst).head? } := by
            simp [ProjectManager.apply, ProjectManager.delete_project, hmem, hcn]
          rw [happ]
          cases hh : ((m.projects.eraseP
              (fun entry => entry.1 == n)).map Prod.fst).head? with
          | none =>
              have hnil := List.head?_eq_none_iff.mp hh
              simpa [activeInvariant, hh] using List.map_eq_nil_iff.mp hnil
          | some k =>
              simpa [activeInvariant, hh] using List.mem_of_mem_head? hh
        · have happ : m.apply (.delete n) =
              { projects := m.projects.eraseP (fun entry => entry.1 == n)
                current_project_name := m.current_project_name } := by
            simp [ProjectManager.apply, ProjectManager.delete_project, hmem, hcn]
          rw [happ]
          cases hcur : m.current_project_name with
          | none =>
              have hempty : m.projects = [] := by
                simpa [activeInvariant, hcur] using h
              simp [hempty] at hmem
          | some c =>
              have hc : c ∈ m.projects.map Prod.fst := by
                simpa [activeInvariant, hcur] using h
              have hcne : c ≠ n := by
                intro hcEq
                exact hcn (by rw [hcur, hcEq])
              simpa [activeInvariant, hcur] using mem_map_fst_eraseP hc hcne
      · simpa [ProjectManager.apply, ProjectManager.delete_project, hmem] using h
  | switchTo n =>
      by_cases hmem : n ∈ m.projects.map Prod.fst
      · simp [ProjectManager.apply, ProjectManager.switch_to_project, hmem,
          activeInvariant]
      · simpa [ProjectManager.apply, ProjectManager.switch_to_project, hmem] using h

theorem activeInvariant_foldl (ops : List StoreOp) :
    ∀ m : ProjectManager, activeInvariant m →
      activeInvariant (ops.foldl ProjectManager.apply m) := by
  induction ops with
  | nil => intro m h; simpa using h
  | cons op rest ih =>
      intro m h
      simpa using ih (m.apply op) (activeInvariant_apply m op h)

/-- Claim C1: for every sequence of `create_project` / `delete_project` /
`switch_to_project` calls starting from a fresh `ProjectManager`, the active
selector invariant holds: `current_project_name` is `None` only when the
projects dict is empty, and otherwise is a key present in the dict. -/
theorem run_preserves_active_invariant (ops : List StoreOp) :
    activeInvariant (ProjectManager.run ops) :=
  activeInvariant_foldl ops ProjectManager.init
    (by simp [activeInvariant, ProjectManager.init])

/-- Claim C2: for every store state and every name already present in the
dict, `create_project(name)` returns `False` without raising and leaves the
store completely unchanged (the whole `ProjectManager` value — every
transcript, every message list, and the active selector — is equal to the
one before the call). -/
theorem create_project_existing_name_unchanged (m : ProjectManager)
    (project_name : String) (h : project_name ∈ m.projects.map Prod.fst) :
    m.create_project project_name = (false, m) := by
  simp [ProjectManager.create_project, h]

theorem create_project_existing_name_unchanged_witness :
    ((ProjectManager.init.create_project "A").2.create_project "A"
      = (false, (ProjectManager.init.create_project "A").2)) :=
  create_project_existing_name_unchanged
    (ProjectManager.init.create_project "A").2 "A" (by decide)

theorem map_fst_eraseP (l : List (String × ConversationProject))
    (name : String) :
    (l.eraseP (fun entry => entry.1 == name)).map Prod.fst
      = (l.map Prod.fst).erase name := by
  induction l with
  | nil => simp
  | cons e es ih =>
      cases hbe : (e.1 == name) with
      | true =>
          rw [List.eraseP_cons, hbe, cond_true, List.map_cons, List.erase_cons,
            if_pos (by simpa using hbe)]
      | false =>
          rw [List.eraseP_cons, hbe, cond_false, List.map_cons, List.map_cons,
            List.erase_cons, if_neg (by simpa using hbe), ih]

/-- The stores of the spec scenario: fresh store, after `create("A")`, after
`create("B")`, after `delete("A")`, after `delete("B")`. -/
def storeA : ProjectManager := (ProjectManager.init.create_project "A").2

/-- The scenario store holding projects "A" and "B", with "A" active. -/
def storeAB : ProjectManager := (storeA.create_project "B").2

/-- The scenario store after deleting the active project "A". -/
def storeB : ProjectManager := (storeAB.delete_project "A").2

/-- The scenario store after deleting the last project "B". -/
def storeEmpty : ProjectManager := (storeB.delete_project "B").2

/-- Claim C3: for every store state (with the unique keys of a dict) and
every present name, `delete_project(name)` returns `True` and removes that
entry; if the removed entry was active, the selector moves to the first
remaining key in insertion order (`List.erase` preserves the order of the
rest, and `head?` picks the first) or to `None` when no entry remains,
and is untouched otherwise.  The second conjunct is the spec scenario:
create("A") → create("A") fails at count 1 → create("B") gives count 2 with
"A" active → delete("A") makes "B" active → delete("B") empties the store. -/
theorem delete_project_reassigns_active (m : ProjectManager)
    (project_name : String) (hnd : (m.projects.map Prod.fst).Nodup)
    (hmem : project_name ∈ m.projects.map Prod.fst) :
    ((m.delete_project project_name).1 = true ∧
      (m.delete_project project_name).2.projects.map Prod.fst
        = (m.projects.map Prod.fst).erase project_name ∧
      project_name ∉ (m.delete_project project_name).2.projects.map Prod.fst ∧
      (m.current_project_name = some project_name →
        (m.delete_project project_name).2.current_project_name
          = ((m.projects.map Prod.fst).erase project_name).head?) ∧
      (m.current_project_name ≠ some project_name →
        (m.delete_project project_name).2.current_project_name
          = m.current_project_name)) ∧
    ((ProjectManager.init.create_project "A").1 = true ∧
      (storeA.create_project "A").1 = false ∧
      storeA.get_project_count = 1 ∧
      (storeA.create_project "B").1 = true ∧
      storeAB.get_project_count = 2 ∧
      storeAB.current_project_name = some "A" ∧
      (storeAB.delete_project "A").1 = true ∧
      storeB.current_project_name = some "B" ∧
      (storeB.delete_project "B").1 = true ∧
      storeEmpty.current_project_name = none ∧
      storeEmpty.get_project_count = 0) := by
  refine ⟨⟨?_, ?_, ?_, ?_, ?_⟩, by decide⟩
  · simp [ProjectManager.delete_project, hmem]
  · simp [ProjectManager.delete_project, hmem, map_fst_eraseP]
  · rw [show (m.delete_project project_name).2.projects.map Prod.fst
        = (m.projects.map Prod.fst).erase project_name by
      simp [ProjectManager.delete_project, hmem, map_fst_eraseP]]
    exact hnd.not_mem_erase
  · intro hcur
    simp [ProjectManager.delete_project, hmem, hcur, map_fst_eraseP]
  · intro hcur
    simp [ProjectManager.delete_project, hmem, hcur]

theorem delete_project_reassigns_active_witness :
    (storeAB.delete_project "A").1 = true ∧
    (storeAB.delete_project "A").2.current_project_name
      = ((storeAB.projects.map Prod.fst).erase "A").head? := by
  have h := delete_project_reassigns_active storeAB "A" (by decide) (by decide)
  exact ⟨h.1.1, h.1.2.2.2.1 (by decide)⟩

/-- `MAX_CONTEXT_MESSAGES` (src/app.py): number of history messages sent as
context. -/
def MAX_CONTEXT_MESSAGES : Nat := 10

/-- `API_TIMEOUT` (src/app.py): request timeout in seconds. -/
def API_TIMEOUT : Nat := 30

/-- `DEEP_RESEARCH_INSTRUCTIONS` (src/app.py): the methodology prompt used
when deep-research mode is on. -/
def DEEP_RESEARCH_INSTRUCTIONS : String :=
  "\nYou are operating in DEEP RESEARCH MODE. This means you should:\n\n1. **THINK STEP-BY-STEP**: Break down complex questions into smaller parts\n   - Identify what the user is really asking\n   - Consider multiple aspects of the question\n   - Build your answer methodically\n\n2. **PROVIDE COMPREHENSIVE ANALYSIS**: Don\u0027t just give quick answers\n   - Explain the \"why\" behind your recommendations\n   - Discuss pros and cons of different approaches\n   - Consider edge cases and potential issues\n\n3. **USE MULTIPLE PERSPECTIVES**: Look at questions from different angles\n   - Beginner perspective: Easy to understand explanations\n   - Advanced perspective: Technical details and best practices\n   - Practical perspective: Real-world examples and use cases\n\n4. **BE THOROUGH**: Provide more detail than usual\n   - Include code examples with detailed comments\n   - Explain how things work under the hood\n   - Suggest related topics to explore further\n\n5. **VERIFY ACCURACY**: Be more careful with information\n   - Double-check technical details\n   - Provide context for when advice applies\n   - Mention any limitations or caveats\n\nThis mode is for users who want deep understanding, not just quick answers.\n"

/-- `NORMAL_MODE_INSTRUCTIONS` (src/app.py): the methodology prompt used in
normal mode. -/
def NORMAL_MODE_INSTRUCTIONS : String :=
  "\nYou are an expert Obsidian assistant. Provide clear, concise, and practical answers.\nFocus on being helpful and accurate while keeping responses reasonably brief.\nInclude code examples when helpful, but keep explanations focused.\n"

/-- The truncation `conversation_history[-MAX_CONTEXT_MESSAGES:]` performed
by both adapters (src/app.py lines 506 and 744): the most recent
`MAX_CONTEXT_MESSAGES` messages (all of them when fewer exist). -/
def recent_messages (conversation_history : List Message) : List Message :=
  conversation_history.drop
    (conversation_history.length - MAX_CONTEXT_MESSAGES)

/-- The normalized result dictionary `{"success": ..., "response": ...}`. -/
structure AIResult where
  success : Bool
  response : String
  deriving DecidableEq, Repr

/-- What an adapter does once its guards have run: either it returns a
failure result without performing any network I/O, or it performs exactly
one network call with the given request. -/
inductive AdapterAction (Req : Type) where
  | fail (result : AIResult)
  | request (req : Req)
  deriving DecidableEq, Repr

/-- The body of the single `client.chat.completions.create(...)` call of
`send_message_to_openai`. -/
structure OpenAIRequest where
  model : String
  messages : List Message
  temperature : ℚ
  max_tokens : Nat
  timeout : Nat
  deriving DecidableEq, Repr

/-- The single `requests.post(...)` call of `send_message_to_huggingface`:
target URL, prompt, and generation parameters. -/
structure HFRequest where
  api_url : String
  inputs : String
  max_length : Nat
  temperature : ℚ
  return_full_text : Bool
  timeout : Nat
  deriving DecidableEq, Repr

/-- The system prompt built by `send_message_to_openai`: methodology
instructions (chosen by mode) followed by the knowledge blob. -/
def openai_system_prompt (obsidian_context : String)
    (use_deep_research : Bool) : String :=
  (if use_deep_research then DEEP_RESEARCH_INSTRUCTIONS
    else NORMAL_MODE_INSTRUCTIONS) ++
    "\n\n=== OBSIDIAN KNOWLEDGE BASE ===\n" ++ obsidian_context ++
    "\n\nRemember: Help users master Obsidian with clear explanations and practical examples."

/-- `send_message_to_openai` (src/app.py) up to the network boundary.
The effectful reads of the source become parameters: `api_key` is the
result of `get_api_key("openai")`, `selected_model` is
`st.session_state.selected_openai_model`, and `obsidian_context` is the
blob returned by `get_all_examples_as_context()` (the knowledge base is an
external collaborator whose content no claim observes). -/
def send_message_to_openai (api_key : Option String)
    (selected_model : String) (obsidian_context : String)
    (user_message : String) (conversation_history : List Message)
    (use_deep_research : Bool) : AdapterAction OpenAIRequest :=
  match api_key with
  | none =>
      .fail { success := false
              response := "❌ OpenAI API key not found. Please set OPENAI_API_KEY in .streamlit/secrets.toml" }
  | some _ =>
      let system_prompt := openai_system_prompt obsidian_context use_deep_research
      let messages : List Message := [{ role := "system", content := system_prompt }]
      let messages := messages ++
        (recent_messages conversation_history).map
          (fun message => { role := message.role, content := message.content })
      let messages := messages ++ [{ role := "user", content := user_message }]
      let temperature : ℚ := if use_deep_research then 0.5 else 0.7
      let max_tokens : Nat := if use_deep_research then 2500 else 1000
      .request { model := selected_model
                 messages := messages
                 temperature := temperature
                 max_tokens := max_tokens
                 timeout := API_TIMEOUT }

/-- The `=== CONVERSATION ===` section of the Hugging Face prompt: one
`User:` / `Assistant:` line per recent message, in order. -/
def hf_conversation_lines (recent : List Message) : String :=
  recent.foldl
    (fun full_prompt message =>
      if message.role == "user" then
        full_prompt ++ "User: " ++ message.content ++ "\n"
      else
        full_prompt ++ "Assistant: " ++ message.content ++ "\n")
    ""

/-- The fixed part of the Hugging Face prompt before the conversation
lines. -/
def hf_prompt_header (obsidian_context : String)
    (use_deep_research : Bool) : String :=
  (if use_deep_research then DEEP_RESEARCH_INSTRUCTIONS
    else NORMAL_MODE_INSTRUCTIONS) ++
    "\n\n=== OBSIDIAN KNOWLEDGE BASE ===\n" ++ obsidian_context ++
    "\n\n=== CONVERSATION ===\n\n"

/-- `send_message_to_huggingface` (src/app.py) up to the network boundary;
parameters as in `send_message_to_openai`, with `selected_model` the value
of `st.session_state.selected_hf_model`. -/
def send_message_to_huggingface (api_key : Option String)
    (selected_model : String) (obsidian_context : String)
    (user_message : String) (conversation_history : List Message)
    (use_deep_research : Bool) : AdapterAction HFRequest :=
  match api_key with
  | none =>
      .fail { success := false
              response := "❌ Hugging Face API key not found. Please set HF_API_KEY in .streamlit/secrets.toml" }
  | some _ =>
      let api_url := "https://api-inference.huggingface.co/models/" ++ selected_model
      let full_prompt := hf_prompt_header obsidian_context use_deep_research
      let full_prompt := full_prompt ++
        hf_conversation_lines (recent_messages conversation_history)
      let full_prompt := full_prompt ++ "User: " ++ user_message ++ "\n" ++ "Assistant: "
      let max_length : Nat := if use_deep_research then 1500 else 500
      let temperature : ℚ := if use_deep_research then 0.5 else 0.7
      .request { api_url := api_url
                 inputs := full_prompt
                 max_length := max_length
                 temperature := temperature
                 return_full_text := false
                 timeout := API_TIMEOUT }

/-- Substring test on character lists, used to model the Python
`needle in haystack` membership checks of the error classifier. -/
def charsContain (needle : List Char) : List Char → Bool
  | [] => needle.isEmpty
  | b :: bs => needle.isPrefixOf (b :: bs) || charsContain needle bs

/-- `needle in haystack` on strings. -/
def strContains (haystack needle : String) : Bool :=
  charsContain needle.toList haystack.toList

/-- Python `str.lower()`, character by character. -/
def lowercase (s : String) : String :=
  ⟨s.data.map Char.toLower⟩

/-- Outcome of the one OpenAI network call: either the provider returned a
text, or an exception (of any kind) was raised and stringified by the
catch-all handler `except Exception as error`. -/
inductive OpenAIOutcome where
  | ok (text : String)
  | error (error_message : String)
  deriving DecidableEq, Repr

/-- Outcome of the one Hugging Face network call: an HTTP response with a
status code (carrying the generated text, read on status 200), a
`requests.exceptions.Timeout`, or any other exception, stringified. -/
inductive HFOutcome where
  | response (status_code : Nat) (generated_text : String)
  | timeout
  | error (error_message : String)
  deriving DecidableEq, Repr

/-- The error classes of the spec taxonomy. -/
inductive ErrorClass where
  | authentication
  | quotaBilling
  | generic
  deriving DecidableEq, Repr

/-- The classifier implemented by the `except` block of
`send_message_to_openai`: substring tests on the lowercased stringified
exception, authentication first, then quota/billing, else generic. -/
def classify_openai_error (error_message : String) : ErrorClass :=
  if strContains (lowercase error_message) "authentication"
      || strContains (lowercase error_message) "api key" then
    .authentication
  else if strContains (lowercase error_message) "quota"
      || strContains (lowercase error_message) "billing" then
    .quotaBilling
  else
    .generic

/-- What `send_message_to_openai` does with the outcome of its network
call: trim and return the text on success, otherwise classify the exception
and return the per-class message.  The function is total, so every
exception is converted into a normal result and nothing propagates. -/
def handle_openai_outcome : OpenAIOutcome → AIResult
  | .ok text => { success := true, response := text.trim }
  | .error error_message =>
      if strContains (lowercase error_message) "authentication"
          || strContains (lowercase error_message) "api key" then
        { success := false
          response := "❌ Invalid OpenAI API key. Please check your OPENAI_API_KEY in secrets.toml" }
      else if strContains (lowercase error_message) "quota"
          || strContains (lowercase error_message) "billing" then
        { success := false
          response := "❌ OpenAI API quota exceeded. Please check your billing at https://platform.openai.com/account/billing" }
      else
        { success := false
          response := "❌ OpenAI API Error: " ++ error_message }

/-- What `send_message_to_huggingface` does with the outcome of its network
call: trim and return the generated text on status 200, and otherwise
return a failure result (non-200 status, timeout, or any other exception),
never raising and never retrying. -/
def handle_hf_outcome : HFOutcome → AIResult
  | .response status_code generated_text =>
      if status_code == 200 then
        { success := true, response := generated_text.trim }
      else
        { success := false
          response := "❌ API Error: Status code " ++ toString status_code ++
            ". The AI service might be busy. Try again in a moment." }
  | .timeout =>
      { success := false
        response := "❌ Request timed out after " ++ toString API_TIMEOUT ++
          " seconds. The AI service might be overloaded. Please try again." }
  | .error error_message =>
      { success := false
        response := "❌ Unexpected error: " ++ error_message }

theorem map_role_content_id (l : List Message) :
    l.map (fun message =>
      ({ role := message.role, content := message.content } : Message)) = l :=
  List.map_id l

/-- Claim C4: both adapters forward only the most recent
`MAX_CONTEXT_MESSAGES = 10` messages of the history as conversational
context: the forwarded slice is a suffix of the history of length
`min (length) 10` (so the oldest excess is dropped, not summarized), it sits
verbatim between the fixed envelope parts of each provider request, and a
15-message history is truncated to its last 10 (`drop 5`). -/
theorem context_truncated_to_last_ten
    (api_key selected_model obsidian_context user_message : String)
    (conversation_history : List Message) (use_deep_research : Bool) :
    (recent_messages conversation_history).length
        = min conversation_history.length MAX_CONTEXT_MESSAGES ∧
    List.IsSuffix (recent_messages conversation_history)
      conversation_history ∧
    (∃ r, send_message_to_openai (some api_key) selected_model
        obsidian_context user_message conversation_history use_deep_research
        = .request r ∧
      r.messages
        = { role := "system"
            content := openai_system_prompt obsidian_context use_deep_research } ::
          (recent_messages conversation_history ++
            [{ role := "user", content := user_message }])) ∧
    (∃ r, send_message_to_huggingface (some api_key) selected_model
        obsidian_context user_message conversation_history use_deep_research
        = .request r ∧
      r.inputs
        = hf_prompt_header obsidian_context use_deep_research ++
          hf_conversation_lines (recent_messages conversation_history) ++
          "User: " ++ user_message ++ "\n" ++ "Assistant: ") ∧
    (conversation_history.length = 15 →
      recent_messages conversation_history = conversation_history.drop 5) := by
  refine ⟨?_, ?_, ⟨_, rfl, ?_⟩, ⟨_, rfl, rfl⟩, ?_⟩
  · rw [recent_messages, List.length_drop, Nat.sub_sub_eq_min]
  · exact List.drop_suffix _ _
  · simp [map_role_content_id]
  · intro h15
    rw [recent_messages, h15]
    norm_num [MAX_CONTEXT_MESSAGES]

/-- A concrete 15-message history for instantiating claim C4. -/
def hist15 : List Message :=
  List.replicate 15 { role := "user", content := "m" }

theorem context_truncated_to_last_ten_witness :
    hist15.length = 15 ∧ recent_messages hist15 = hist15.drop 5 := by
  have h := context_truncated_to_last_ten "k" "gpt-3.5-turbo" "ctx" "q"
    hist15 true
  exact ⟨by decide, h.2.2.2.2 (by decide)⟩

/-- Claim C5: the generation parameters depend only on the research-mode
flag: research mode gives temperature 0.5 with max output 2500 (chat
adapter) / 1500 (completion adapter), normal mode gives temperature 0.7
with max output 1000 / 500. -/
theorem research_mode_generation_parameters
    (api_key selected_model obsidian_context user_message : String)
    (conversation_history : List Message) :
    (∃ r, send_message_to_openai (some api_key) selected_model
        obsidian_context user_message conversation_history true
        = .request r ∧ r.temperature = 0.5 ∧ r.max_tokens = 2500) ∧
    (∃ r, send_message_to_openai (some api_key) selected_model
        obsidian_context user_message conversation_history false
        = .request r ∧ r.temperature = 0.7 ∧ r.max_tokens = 1000) ∧
    (∃ r, send_message_to_huggingface (some api_key) selected_model
        obsidian_context user_message conversation_history true
        = .request r ∧ r.temperature = 0.5 ∧ r.max_length = 1500) ∧
    (∃ r, send_message_to_huggingface (some api_key) selected_model
        obsidian_context user_message conversation_history false
        = .request r ∧ r.temperature = 0.7 ∧ r.max_length = 500) :=
  ⟨⟨_, rfl, rfl, rfl⟩, ⟨_, rfl, rfl, rfl⟩, ⟨_, rfl, rfl, rfl⟩, ⟨_, rfl, rfl, rfl⟩⟩

/-- Claim C6: with no credential configured (`get_api_key` returned `None`),
each adapter returns `success=false` with a message naming the missing
credential, and does so via `AdapterAction.fail`, i.e. before any network
request is built or sent. -/
theorem missing_credential_fails_without_network
    (selected_model obsidian_context user_message : String)
    (conversation_history : List Message) (use_deep_research : Bool) :
    send_message_to_openai none selected_model obsidian_context user_message
        conversation_history use_deep_research
      = .fail { success := false
                response := "❌ OpenAI API key not found. Please set OPENAI_API_KEY in .streamlit/secrets.toml" } ∧
    strContains "❌ OpenAI API key not found. Please set OPENAI_API_KEY in .streamlit/secrets.toml"
      "OPENAI_API_KEY" = true ∧
    send_message_to_huggingface none selected_model obsidian_context
        user_message conversation_history use_deep_research
      = .fail { success := false
                response := "❌ Hugging Face API key not found. Please set HF_API_KEY in .streamlit/secrets.toml" } ∧
    strContains "❌ Hugging Face API key not found. Please set HF_API_KEY in .streamlit/secrets.toml"
      "HF_API_KEY" = true :=
  ⟨rfl, by decide, rfl, by decide⟩

/-- Claim C7, refuted as stated: the claim promises that each of the two
adapters classifies every failure into one of the three classes with a
class-specific message, but the Hugging Face adapter performs no
authentication or quota/billing detection.  At the concrete authentication
failures below — a stringified exception reading "authentication failed"
(which the OpenAI classifier maps to the authentication class) and an HTTP
401 Unauthorized status — the Hugging Face adapter returns its catch-all
generic messages, the same formats any other exception ("connection
reset") or status code receives, not an authentication-class message. -/
theorem provider_failure_classification_counterexample :
    classify_openai_error "authentication failed" = .authentication ∧
    handle_hf_outcome (.error "authentication failed")
      = { success := false
          response := "❌ Unexpected error: authentication failed" } ∧
    handle_hf_outcome (.error "connection reset")
      = { success := false
          response := "❌ Unexpected error: connection reset" } ∧
    handle_hf_outcome (.response 401 "")
      = { success := false
          response := "❌ API Error: Status code 401. The AI service might be busy. Try again in a moment." } :=
  ⟨by decide, rfl, rfl, by decide⟩

/-- Claim C7 as amended: each adapter converts every transport/provider
failure into a normal `success=false` result — the handlers are total
functions into `AIResult`, so every exception is caught, nothing
propagates, and each dispatch consumes exactly one network outcome, so no
retry is performed.  The OpenAI adapter classifies every stringified
exception into exactly one of the three classes (authentication,
quota/billing, generic) and returns the class-specific human-readable
message; the Hugging Face adapter performs no such classification — every
one of its failures (non-200 status, timeout, or any other exception) is
returned with the generic failure message of that failure kind. -/
theorem provider_failure_classification :
    (∀ e, (handle_openai_outcome (.error e)).success = false ∧
      ((classify_openai_error e = .authentication ∧
          (handle_openai_outcome (.error e)).response
            = "❌ Invalid OpenAI API key. Please check your OPENAI_API_KEY in secrets.toml") ∨
        (classify_openai_error e = .quotaBilling ∧
          (handle_openai_outcome (.error e)).response
            = "❌ OpenAI API quota exceeded. Please check your billing at https://platform.openai.com/account/billing") ∨
        (classify_openai_error e = .generic ∧
          (handle_openai_outcome (.error e)).response
            = "❌ OpenAI API Error: " ++ e))) ∧
    (∀ status_code generated_text, status_code ≠ 200 →
      handle_hf_outcome (.response status_code generated_text)
        = { success := false
            response := "❌ API Error: Status code " ++ toString status_code ++
              ". The AI service might be busy. Try again in a moment." }) ∧
    (handle_hf_outcome .timeout
      = { success := false
          response := "❌ Request timed out after " ++ toString API_TIMEOUT ++
            " seconds. The AI service might be overloaded. Please try again." }) ∧
    (∀ e, handle_hf_outcome (.error e)
      = { success := false
          response := "❌ Unexpected error: " ++ e }) := by
  refine ⟨fun e => ?_, fun status_code generated_text hne => ?_, rfl, fun e => rfl⟩
  · by_cases h1 : (strContains (lowercase e) "authentication"
        || strContains (lowercase e) "api key") = true
    · exact ⟨by simp [handle_openai_outcome, h1],
        Or.inl ⟨by simp [classify_openai_error, h1],
          by simp [handle_openai_outcome, h1]⟩⟩
    · have h1f : (strContains (lowercase e) "authentication"
          || strContains (lowercase e) "api key") = false := by simpa using h1
      by_cases h2 : (strContains (lowercase e) "quota"
          || strContains (lowercase e) "billing") = true
      · exact ⟨by simp [handle_openai_outcome, h1f, h2],
          Or.inr (Or.inl ⟨by simp [classify_openai_error, h1f, h2],
            by simp [handle_openai_outcome, h1f, h2]⟩)⟩
      · have h2f : (strContains (lowercase e) "quota"
            || strContains (lowercase e) "billing") = false := by simpa using h2
        exact ⟨by simp [handle_openai_outcome, h1f, h2f],
          Or.inr (Or.inr ⟨by simp [classify_openai_error, h1f, h2f],
            by simp [handle_openai_outcome, h1f, h2f]⟩)⟩
  · have hbe : (status_code == 200) = false := by simpa using hne
    simp [handle_hf_outcome, hbe]

theorem provider_failure_classification_witness :
    handle_hf_outcome (.response 503 "busy")
      = { success := false
          response := "❌ API Error: Status code " ++ toString 503 ++
            ". The AI service might be busy. Try again in a moment." } := by
  have h := provider_failure_classification
  exact h.2.1 503 "busy" (by decide)

/-- What the chat interface hands to the dispatcher
(`render_chat_interface`, src/app.py lines 1313 and 1328): the user message
is first appended to the active transcript, and the history passed on is
fetched only afterwards — so it already ends with the new user message. -/
def chat_dispatch_history (current_project : ConversationProject)
    (user_input : String) : List Message :=
  (current_project.add_message "user" user_input).get_messages

theorem hf_conversation_lines_concat_user (l : List Message)
    (user_input : String) :
    hf_conversation_lines (l ++ [{ role := "user", content := user_input }])
      = hf_conversation_lines l ++ "User: " ++ user_input ++ "\n" := by
  simp [hf_conversation_lines, List.foldl_append]

/-- Claim C10 (implicit): the chat interface appends the user message to
the transcript before fetching the history, and each adapter appends the
user message again after the truncated history; hence, whenever the prior
history has fewer than `MAX_CONTEXT_MESSAGES` messages, the provider
request contains the new user message twice — as the last element of the
included history and as the final appended message. -/
theorem user_message_forwarded_twice
    (api_key selected_model obsidian_context user_input : String)
    (current_project : ConversationProject) (use_deep_research : Bool)
    (hlen : current_project.messages.length < MAX_CONTEXT_MESSAGES) :
    (∃ r, send_message_to_openai (some api_key) selected_model
        obsidian_context user_input
        (chat_dispatch_history current_project user_input) use_deep_research
        = .request r ∧
      r.messages
        = { role := "system"
            content := openai_system_prompt obsidian_context use_deep_research } ::
          (current_project.messages ++
            [{ role := "user", content := user_input },
             { role := "user", content := user_input }])) ∧
    (∃ r, send_message_to_huggingface (some api_key) selected_model
        obsidian_context user_input
        (chat_dispatch_history current_project user_input) use_deep_research
        = .request r ∧
      r.inputs
        = hf_prompt_header obsidian_context use_deep_research ++
          hf_conversation_lines current_project.messages ++
          "User: " ++ user_input ++ "\n" ++
          "User: " ++ user_input ++ "\n" ++ "Assistant: ") := by
  have hhist : chat_dispatch_history current_project user_input
      = current_project.messages ++ [{ role := "user", content := user_input }] := rfl
  have hrec : recent_messages (chat_dispatch_history current_project user_input)
      = current_project.messages ++ [{ role := "user", content := user_input }] := by
    rw [hhist, recent_messages]
    have hz : (current_project.messages ++
        [({ role := "user", content := user_input } : Message)]).length
          - MAX_CONTEXT_MESSAGES = 0 := by
      rw [List.length_append]
      simp only [List.length_singleton]
      omega
    rw [hz, List.drop_zero]
  refine ⟨⟨_, rfl, ?_⟩, ⟨_, rfl, ?_⟩⟩
  · rw [hrec, map_role_content_id]
    simp
  · rw [hrec, hf_conversation_lines_concat_user]
    simp [String.append_assoc]

theorem user_message_forwarded_twice_witness :
    ∃ r, send_message_to_openai (some "k") "gpt-3.5-turbo" "ctx" "hello"
        (chat_dispatch_history (ConversationProject.init "General Questions")
          "hello") false
        = .request r ∧
      r.messages
        = { role := "system", content := openai_system_prompt "ctx" false } ::
          ((ConversationProject.init "General Questions").messages ++
            [{ role := "user", content := "hello" },
             { role := "user", content := "hello" }]) := by
  have h := user_message_forwarded_twice "k" "gpt-3.5-turbo" "ctx" "hello"
    (ConversationProject.init "General Questions") false (by decide)
  exact h.1
